import Mathlib

/-!
Shallow embedding of the MCP connection supervisor of
`src/py/mcp_clients.py` (classes `ConnectionManager` and `McpClient`,
and the module-level `get_command_path`), together with proofs of the
specified properties.

Modelling conventions:
* Python dictionaries that carry the endpoint configuration become a
  `Config` structure with `Option` fields for keys that may be absent.
* `shutil.which` is an environment parameter `which : String → Option String`.
* The module-level `_CMD_PATH_CACHE` dictionary becomes an association
  list threaded through `get_command_path` explicitly.
* Raised exceptions become `Except.error` carrying the message string.
* Awaited outcomes of network operations (transport establishment,
  `list_tools`, `send_ping`, `call_tool`) are passed in as explicit
  outcome values, so each method is a pure function of the client state
  and of the outcomes of its awaits.
-/

set_option autoImplicit false

namespace McpClients

/-! ## Command resolution (`get_command_path`, lines 10–22) -/

/-- The memoization table: the module-level `_CMD_PATH_CACHE` dict, keyed by
`(command_name, default_command)`. -/
abbrev CmdPathCache := List ((String × String) × String)

/-- Embeds `get_command_path` (lines 12–22).  `which` models `shutil.which`.
Returns the resolved path together with the updated cache; `Except.error`
models the raised `FileNotFoundError`. -/
def get_command_path (cache : CmdPathCache) (which : String → Option String)
    (command_name : String) (default_command : String) :
    Except String (String × CmdPathCache) :=
  match cache.lookup (command_name, default_command) with
  | some p => Except.ok (p, cache)
  | none =>
    match (which command_name).orElse (fun _ => which default_command) with
    | none => Except.error ("未找到 " ++ command_name ++ " 或 " ++ default_command)
    | some p => Except.ok (p, ((command_name, default_command), p) :: cache)

/-! ## Endpoint configuration and transport dispatch
(`ConnectionManager.connect`, lines 30–77) -/

/-- The endpoint configuration dict.  `Option` fields model keys that may be
absent (`config.get` / `"command" in config` / `config["url"]`). -/
structure Config where
  command : Option String
  args : List String
  url : Option String
  type : Option String
  headers : List (String × String)
  deriving Repr, DecidableEq

/-- Python's substring test `pat in s`, on the character lists of the
strings: `listStartsWith pat l` is `l` beginning with `pat`. -/
def listStartsWith : List Char → List Char → Bool
  | [], _ => true
  | _ :: _, [] => false
  | p :: ps, c :: cs => p == c && listStartsWith ps cs

/-- `listHasSub pat l` is true when `pat` occurs contiguously in `l`. -/
def listHasSub (pat : List Char) : List Char → Bool
  | [] => listStartsWith pat []
  | c :: cs => listStartsWith pat (c :: cs) || listHasSub pat cs

/-- `strContains s pat` embeds Python's `pat in s` on strings. -/
def strContains (s pat : String) : Bool :=
  listHasSub pat.toList s.toList

/-- The four transport branches of `ConnectionManager.connect`. -/
inductive TransportChoice where
  | stdio
  | websocket
  | sse
  | streamablehttp
  deriving Repr, DecidableEq

/-- Embeds the transport-selection logic of `ConnectionManager.connect`
(lines 42–77): the stdio branch when `"command" in config`; otherwise
`mcptype = config.get("type", "ws")`, rewritten to `"streamablehttp"` when
it contains `"streamable"`, then `url = config["url"]` (a missing key
raises `KeyError`) and the dispatch on `mcptype`, with the final `else`
raising `ValueError(f"Unknown MCP type: {mcptype}")`.  The stdio branch
resolves the executable via `get_command_path`; that resolution is modelled
separately above. -/
def selectTransport (config : Config) : Except String TransportChoice :=
  if config.command.isSome then
    Except.ok TransportChoice.stdio
  else
    let mcptype0 := config.type.getD "ws"
    let mcptype := if strContains mcptype0 "streamable" then "streamablehttp" else mcptype0
    match config.url with
    | none => Except.error "KeyError: url"
    | some _ =>
      if mcptype = "ws" then Except.ok TransportChoice.websocket
      else if mcptype = "sse" then Except.ok TransportChoice.sse
      else if mcptype = "streamablehttp" then Except.ok TransportChoice.streamablehttp
      else Except.error ("Unknown MCP type: " ++ mcptype)

/-- Outcome of the single `await read.receive()` probe inside
`with anyio.move_on_after(3)` in the SSE branch (lines 66–72). -/
inductive SSEProbe where
  /-- The 3-second window elapsed before `receive` completed: the cancel
  scope of `anyio.move_on_after` absorbs the cancellation and the `with`
  block exits normally, raising nothing. -/
  | timeout
  /-- `receive` raised `anyio.EndOfStream`. -/
  | endOfStream
  /-- `receive` raised some other exception with message `msg`. -/
  | recvError (msg : String)
  /-- The first event of the stream arrived within the window. -/
  | event
  deriving Repr, DecidableEq

/-- Embeds the SSE handshake check of `ConnectionManager.connect`
(lines 61–72).  `events` is the pending event stream of the transport's
read channel; the result carries the read channel's remaining stream when
the connect proceeds to session creation, and `Except.error` models the
raised `RuntimeError`.  A timed-out probe raises nothing, because
`anyio.move_on_after(3)` cancels the inner `await` and then swallows the
cancellation at the end of the `with` block, so execution falls through to
`ClientSession` creation; a probed event is read off the stream and
discarded. -/
def sseHandshake (events : List String) (probe : SSEProbe) :
    Except String (List String) :=
  match probe with
  | SSEProbe.timeout => Except.ok events
  | SSEProbe.endOfStream => Except.error "SSE stream closed immediately"
  | SSEProbe.recvError msg =>
      Except.error ("SSE initial handshake failed: " ++ msg)
  | SSEProbe.event => Except.ok events.tail

/-! ## Capability descriptors and the OpenAI projection
(`McpClient._refresh_tools_cache`, lines 126–153) -/

/-- A capability descriptor, as returned by `session.list_tools()`:
the fields of `t` that `_refresh_tools_cache` reads.  The input schema is
opaque to this module and is modelled as a string. -/
structure ToolDesc where
  name : String
  description : String
  inputSchema : String
  deriving Repr, DecidableEq

/-- The inner `function` object of a projected entry. -/
structure OpenAIFunction where
  name : String
  description : String
  parameters : String
  deriving Repr, DecidableEq

/-- One entry of `_tools_openai_cache`, as built in lines 141–150. -/
structure OpenAIToolEntry where
  type : String
  function : OpenAIFunction
  original_name : String
  deriving Repr, DecidableEq

/-- The per-tool projection performed by the loop in lines 140–150. -/
def projectTool (t : ToolDesc) : OpenAIToolEntry :=
  { type := "function"
    function :=
      { name := t.name
        description := t.description
        parameters := t.inputSchema }
    original_name := t.name }

/-- Monitor-task status, for `self._monitor_task`:
`asyncio.Task.done()` distinguishes the two. -/
inductive TaskState where
  | running
  | done
  deriving Repr, DecidableEq

/-- The mutable state of a `McpClient` (fields set in `__init__`,
lines 90–101).  `conn : Bool` abbreviates
`self._conn is not None and self._conn.session is not None`: the monitor
only ever stores a `ConnectionManager` whose `session` is populated
(`connect` sets `session` before yielding), so the two null-checks of the
source collapse to one flag. -/
structure McpClientState where
  conn : Bool
  config : Option Config
  monitor_task : Option TaskState
  shutdown : Bool
  on_failure_callback : Bool
  tools_cache : List ToolDesc
  tools_openai_cache : List OpenAIToolEntry
  disabled : Bool
  deriving Repr, DecidableEq

/-- The state built by `McpClient.__init__` (lines 90–101). -/
def McpClientInit : McpClientState :=
  { conn := false
    config := none
    monitor_task := none
    shutdown := false
    on_failure_callback := false
    tools_cache := []
    tools_openai_cache := []
    disabled := false }

/-- Embeds `_refresh_tools_cache` (lines 126–153).  `listToolsResult` is the
outcome of `await self._conn.session.list_tools()`: `Except.error` when it
raised.  On the early `return` (no connection) and on a caught exception
(only logged, line 153) the state is returned unchanged; on success both
caches are replaced. -/
def refreshToolsCache (s : McpClientState)
    (listToolsResult : Except String (List ToolDesc)) : McpClientState :=
  if s.conn then
    match listToolsResult with
    | Except.error _ => s
    | Except.ok tools =>
        { s with
          tools_cache := tools
          tools_openai_cache := tools.map projectTool }
  else s

/-! ## Facade calls (`get_openai_functions`, `call_tool`, lines 191–224) -/

/-- Embeds `get_openai_functions` (lines 191–207): an empty cache returns
`[]`; an empty disable list returns the whole cache; otherwise the list
comprehension filters on `_original_name not in disable_tools`. -/
def get_openai_functions (s : McpClientState) (disable_tools : List String) :
    List OpenAIToolEntry :=
  if s.tools_openai_cache = [] then []
  else if disable_tools = [] then s.tools_openai_cache
  else s.tools_openai_cache.filter
    (fun t => !disable_tools.contains t.original_name)

/-! ## Lifecycle (`initialize`, lines 111–115) -/

/-- Embeds `McpClient.initialize` (lines 111–115): store the config and the
callback, then create the monitor task only when `self._monitor_task` is
`None` or done.  The returned `Bool` records whether
`asyncio.create_task(self._connection_monitor())` ran (a fresh loop was
spawned); there is at most one monitor task, held in `monitor_task`.
The `server_name` argument is unused by the source body and omitted.
(Named `initializeMcp` because the source's name is unavailable here.) -/
def initializeMcp (s : McpClientState) (server_config : Config)
    (callbackRegistered : Bool) : McpClientState × Bool :=
  let s1 := { s with
    config := some server_config
    on_failure_callback := callbackRegistered }
  match s.monitor_task with
  | some TaskState.running => (s1, false)
  | some TaskState.done =>
      ({ s1 with monitor_task := some TaskState.running }, true)
  | none =>
      ({ s1 with monitor_task := some TaskState.running }, true)

deriving instance DecidableEq for Except

/-! ## The supervisor loop (`_connection_monitor`, lines 155–188)

One iteration of the `while` body is a pure function of the client state
and of how the awaited network operations turned out in that iteration. -/

/-- How the connected phase of one iteration ended, once
`ConnectionManager().connect` succeeded and the heartbeat sub-loop ran. -/
inductive PhaseEnd where
  /-- `asyncio.wait_for(send_ping, 3)` raised: the inner `try` catches it,
  logs a warning and `break`s; the `async with` blocks unwind cleanly and
  no exception reaches the outer `except`. -/
  | pingFail
  /-- An exception with message `msg` escaped the `async with` body or its
  teardown and reached the outer `except Exception`. -/
  | sessionError (msg : String)
  deriving Repr, DecidableEq

/-- The awaited outcomes of one iteration of the monitor loop. -/
inductive IterEvent where
  /-- `ConnectionManager().connect(self._config)` raised during transport
  establishment or the session handshake, with message `msg`; the body was
  never entered, so `self._conn` was not stored. -/
  | connectError (msg : String)
  /-- The connect succeeded: `self._conn` is stored under the lock,
  `_refresh_tools_cache` runs once with outcome `listTools`, and the
  heartbeat sub-loop runs until `phaseEnd`. -/
  | session (listTools : Except String (List ToolDesc)) (phaseEnd : PhaseEnd)
  deriving Repr, DecidableEq

/-- The externally visible side effects of one iteration. -/
inductive MonAction where
  | logWarning (msg : String)
  | logError (msg : String)
  /-- `await self._on_failure_callback(str(e))` was awaited with `msg`. -/
  | callbackInvoked (msg : String)
  /-- `await asyncio.sleep(5)` before the next iteration. -/
  | sleepRetry
  deriving Repr, DecidableEq

/-- Recognizes a callback invocation among an iteration's actions. -/
def isCallbackAction : MonAction → Bool
  | MonAction.callbackInvoked _ => true
  | _ => false

/-- Recognizes the fixed-delay retry sleep among an iteration's actions. -/
def isSleepAction : MonAction → Bool
  | MonAction.sleepRetry => true
  | _ => false

/-- The client state at the point the heartbeat sub-loop runs (after the
session was stored under the lock, line 160, and `_refresh_tools_cache`
returned, line 163).  For a failed connect the `async with` body was never
entered and the state is unchanged from the top of the iteration. -/
def connectedPhaseState (s : McpClientState) (ev : IterEvent) : McpClientState :=
  match ev with
  | IterEvent.connectError _ => s
  | IterEvent.session listTools _ =>
      refreshToolsCache { s with conn := true } listTools

/-- Result of one iteration of the monitor loop: the state after the
`finally` block, the actions performed, and `crashed = some msg` when an
exception escaped the iteration (killing the monitor task). -/
structure IterResult where
  state : McpClientState
  actions : List MonAction
  crashed : Option String
  deriving Repr, DecidableEq

/-- Embeds one iteration of the `while` body of `_connection_monitor`
(lines 157–188).  `cbRaises` says whether `self._on_failure_callback`, if
awaited, itself raises; that exception is not caught anywhere in the
loop, so after the `finally` block runs it escapes the iteration and the
monitor task dies with it (`crashed`).  The `finally` block (lines
180–185) always clears the session reference and both caches. -/
def monitorIteration (s : McpClientState) (ev : IterEvent) (cbRaises : Bool) :
    IterResult :=
  let sConn := connectedPhaseState s ev
  let raised : Option String :=
    match ev with
    | IterEvent.connectError msg => some msg
    | IterEvent.session _ PhaseEnd.pingFail => none
    | IterEvent.session _ (PhaseEnd.sessionError msg) => some msg
  let pingLog : List MonAction :=
    match ev with
    | IterEvent.session _ PhaseEnd.pingFail =>
        [MonAction.logWarning "MCP Ping failed, reconnecting..."]
    | _ => []
  let handled : List MonAction × Option String :=
    match raised with
    | none => ([], none)
    | some msg =>
      if !s.shutdown && !s.disabled then
        if s.on_failure_callback then
          ([MonAction.logError msg, MonAction.callbackInvoked msg],
           if cbRaises then some msg else none)
        else ([MonAction.logError msg], none)
      else ([], none)
  let sFin : McpClientState :=
    { sConn with
      conn := false
      tools_cache := []
      tools_openai_cache := [] }
  let tail : List MonAction :=
    if handled.2.isNone && !s.shutdown then [MonAction.sleepRetry] else []
  { state := sFin
    actions := pingLog ++ handled.1 ++ tail
    crashed := handled.2 }

/-- The value `call_tool` hands back to its caller: either the session's
result object or an error string.  `call_tool` never raises. -/
inductive CallResult where
  | result (r : String)
  | errorString (msg : String)
  deriving Repr, DecidableEq

/-- Embeds `call_tool` (lines 215–224).  `outcome` is the outcome of
`await self._conn.session.call_tool(tool_name, tool_params)` when it is
reached: `Except.error e` when that call raised with message `e`.  The
tool parameters do not influence the control flow and are omitted. -/
def call_tool (s : McpClientState) (tool_name : String)
    (outcome : Except String String) : CallResult :=
  if s.conn then
    match outcome with
    | Except.ok r => CallResult.result r
    | Except.error e =>
        CallResult.errorString ("Failed to call tool " ++ tool_name ++ ": " ++ e)
  else CallResult.errorString "Error: MCP Server is not connected."

/-! ## Concrete fixtures used by witnesses and counterexamples -/

/-- A network endpoint config with neither `command` nor `type` key. -/
def cfgWs : Config :=
  { command := none
    args := []
    url := some "ws://x"
    type := none
    headers := [] }

/-- A sample capability descriptor. -/
def toolSearch : ToolDesc :=
  { name := "search"
    description := "searches"
    inputSchema := "schema" }

/-- A client whose monitor loop is already running. -/
def sRunning : McpClientState :=
  { McpClientInit with monitor_task := some TaskState.running }

/-- A connected client (session stored, caches still empty). -/
def sConn : McpClientState := { McpClientInit with conn := true }

/-- A client with a registered failure callback, neither shut down nor
disabled. -/
def sCb : McpClientState := { McpClientInit with on_failure_callback := true }

/-- A sample search-path lookup environment for `get_command_path`. -/
def whichEx : String → Option String
  | "python" => some "/usr/bin/python"
  | _ => none

/-- A handshake that succeeded followed by a `list_tools` call that
succeeded with a non-empty tool list: the only iteration events whose
connected-phase state can hold a non-empty cache. -/
def isSuccessfulRefreshEvent : IterEvent → Bool
  | IterEvent.session (Except.ok tools) _ => !tools.isEmpty
  | _ => false

/-! ## Claims -/

/-- C10: for every endpoint config with no `command` key and no `type`
key, `ConnectionManager.connect` defaults the transport kind to `"ws"`
and connects through the WebSocket client. -/
theorem claim_C10_default_transport_is_websocket (c : Config) (u : String)
    (h1 : c.command = none) (h2 : c.type = none) (h3 : c.url = some u) :
    selectTransport c = Except.ok TransportChoice.websocket := by
  cases c with
  | mk command args url ty headers =>
    simp only at h1 h2 h3
    subst h1; subst h2; subst h3
    rfl

/-- Witness for C10 at the concrete config `cfgWs`. -/
theorem claim_C10_default_transport_is_websocket_witness :
    selectTransport cfgWs = Except.ok TransportChoice.websocket :=
  claim_C10_default_transport_is_websocket cfgWs "ws://x" rfl rfl rfl

/-- Helper for C8: a successful `get_command_path` leaves the resolved
path cached under the `(command_name, default_command)` key. -/
theorem get_command_path_ok_lookup (cache : CmdPathCache)
    (which : String → Option String) (n d p : String) (cache2 : CmdPathCache)
    (h : get_command_path cache which n d = Except.ok (p, cache2)) :
    cache2.lookup (n, d) = some p := by
  cases hl : cache.lookup (n, d) with
  | some q =>
      simp [get_command_path, hl] at h
      obtain ⟨hp, hc⟩ := h
      subst hp; subst hc
      exact hl
  | none =>
      cases hw : (which n).orElse (fun _ => which d) with
      | none => simp [get_command_path, hl, hw] at h
      | some q =>
          simp [get_command_path, hl, hw] at h
          obtain ⟨hp, hc⟩ := h
          subst hp
          rw [← hc]
          simp [List.lookup]

/-- C8: `get_command_path` resolves `command_name` on the search path,
falls back to `default_command`, raises when both are absent, and after a
first successful call every later call for the same pair returns that
first result from the cache without consulting the search path (the
result no longer depends on `which`). -/
theorem claim_C8_resolve_and_memoize (cache : CmdPathCache)
    (which : String → Option String) (n d : String) :
    (∀ p, cache.lookup (n, d) = none → which n = some p →
      get_command_path cache which n d = Except.ok (p, ((n, d), p) :: cache)) ∧
    (∀ p, cache.lookup (n, d) = none → which n = none → which d = some p →
      get_command_path cache which n d = Except.ok (p, ((n, d), p) :: cache)) ∧
    (cache.lookup (n, d) = none → which n = none → which d = none →
      get_command_path cache which n d
        = Except.error ("未找到 " ++ n ++ " 或 " ++ d)) ∧
    (∀ p cache2, get_command_path cache which n d = Except.ok (p, cache2) →
      ∀ which2, get_command_path cache2 which2 n d = Except.ok (p, cache2)) := by
  refine ⟨?_, ?_, ?_, ?_⟩
  · intro p hl hw
    simp [get_command_path, hl, hw, Option.orElse]
  · intro p hl hw1 hw2
    simp [get_command_path, hl, hw1, hw2, Option.orElse]
  · intro hl hw1 hw2
    simp [get_command_path, hl, hw1, hw2, Option.orElse]
  · intro p cache2 h which2
    have hc : cache2.lookup (n, d) = some p :=
      get_command_path_ok_lookup cache which n d p cache2 h
    have hsame : cache2 = cache ∨ cache2 = ((n, d), p) :: cache := by
      cases hl : cache.lookup (n, d) with
      | some q =>
          simp [get_command_path, hl] at h
          exact Or.inl h.2.symm
      | none =>
          cases hw : (which n).orElse (fun _ => which d) with
          | none => simp [get_command_path, hl, hw] at h
          | some q =>
              simp [get_command_path, hl, hw] at h
              right
              rw [← h.2, h.1]
    simp [get_command_path, hc]

/-- Witness for C8: a fresh cache and a search path holding `python`. -/
theorem claim_C8_resolve_and_memoize_witness :
    get_command_path [] whichEx "python" "uv"
      = Except.ok ("/usr/bin/python", [(("python", "uv"), "/usr/bin/python")]) :=
  (claim_C8_resolve_and_memoize [] whichEx "python" "uv").1 "/usr/bin/python" rfl rfl

/-- C7: a failed `list_tools` inside `_refresh_tools_cache` is only
logged; the whole client state — in particular both the raw and the
projected cache — is exactly what it was before the refresh. -/
theorem claim_C7_failed_refresh_preserves_cache (s : McpClientState) (msg : String) :
    refreshToolsCache s (Except.error msg) = s ∧
    (refreshToolsCache s (Except.error msg)).tools_cache = s.tools_cache ∧
    (refreshToolsCache s (Except.error msg)).tools_openai_cache
      = s.tools_openai_cache := by
  refine ⟨?_, ?_, ?_⟩ <;> simp [refreshToolsCache]

/-- C6: a successful refresh replaces the raw cache with the fetched list
and the projected cache with its order-preserving, length-preserving image
under `projectTool`, whose value on each descriptor is exactly the
`{type, function := {name, description, parameters}, original_name}`
record of the source loop. -/
theorem claim_C6_projection_shape (s : McpClientState) (tools : List ToolDesc)
    (h : s.conn = true) :
    (refreshToolsCache s (Except.ok tools)).tools_cache = tools ∧
    (refreshToolsCache s (Except.ok tools)).tools_openai_cache
      = tools.map projectTool ∧
    (refreshToolsCache s (Except.ok tools)).tools_openai_cache.length
      = tools.length ∧
    ∀ t, projectTool t =
      { type := "function"
        function :=
          { name := t.name
            description := t.description
            parameters := t.inputSchema }
        original_name := t.name } := by
  refine ⟨?_, ?_, ?_, fun t => rfl⟩ <;> simp [refreshToolsCache, h]

/-- Witness for C6 at a connected client and a one-element tool list. -/
theorem claim_C6_projection_shape_witness :
    (refreshToolsCache sConn (Except.ok [toolSearch])).tools_openai_cache
      = [toolSearch].map projectTool :=
  (claim_C6_projection_shape sConn [toolSearch] rfl).2.1

/-- C5: `get_openai_functions` returns exactly the cached projected
entries whose original name is not excluded, in cache order, and every
returned entry's original name avoids the excluded list. -/
theorem claim_C5_get_openai_functions_filters (s : McpClientState)
    (excluded : List String) :
    get_openai_functions s excluded
      = s.tools_openai_cache.filter
          (fun t => !excluded.contains t.original_name) ∧
    (get_openai_functions s excluded).all
      (fun t => !excluded.contains t.original_name) = true := by
  have hfilter : ∀ (l : List OpenAIToolEntry) (p : OpenAIToolEntry → Bool),
      (l.filter p).all p = true := by
    intro l p
    rw [List.all_eq_true]
    intro t ht
    exact (List.mem_filter.mp ht).2
  have h1 : get_openai_functions s excluded
      = s.tools_openai_cache.filter
          (fun t => !excluded.contains t.original_name) := by
    unfold get_openai_functions
    by_cases hc : s.tools_openai_cache = []
    · simp [hc]
    · by_cases hd : excluded = []
      · subst hd
        simp [hc]
      · simp [hc, hd]
  exact ⟨h1, h1 ▸ hfilter _ _⟩

/-- C4: `call_tool` with no active session returns the explicit
"not connected" error string; with an active session a raising
session-level call is returned as a human-readable error string and a
successful one as its result — in all cases an ordinary return value,
never a propagated exception. -/
theorem claim_C4_call_tool_errors (s : McpClientState) (tool_name : String)
    (outcome : Except String String) :
    (s.conn = false →
      call_tool s tool_name outcome
        = CallResult.errorString "Error: MCP Server is not connected.") ∧
    (∀ e, s.conn = true → outcome = Except.error e →
      call_tool s tool_name outcome
        = CallResult.errorString
            ("Failed to call tool " ++ tool_name ++ ": " ++ e)) ∧
    (∀ r, s.conn = true → outcome = Except.ok r →
      call_tool s tool_name outcome = CallResult.result r) := by
  refine ⟨?_, ?_, ?_⟩
  · intro h
    simp [call_tool, h]
  · intro e h ho
    simp [call_tool, h, ho]
  · intro r h ho
    simp [call_tool, h, ho]

/-- Witness for C4: a freshly constructed (disconnected) client. -/
theorem claim_C4_call_tool_errors_witness :
    call_tool McpClientInit "search" (Except.ok "r")
      = CallResult.errorString "Error: MCP Server is not connected." :=
  (claim_C4_call_tool_errors McpClientInit "search" (Except.ok "r")).1 rfl

/-- C9: a second `initialize` while the monitor loop is still running
updates the stored config and callback but spawns no second loop: the
single monitor task is left untouched and `create_task` is not run. -/
theorem claim_C9_initializeMcp_idempotent (s : McpClientState) (c : Config)
    (cb : Bool) (h : s.monitor_task = some TaskState.running) :
    initializeMcp s c cb
      = ({ s with config := some c, on_failure_callback := cb }, false) ∧
    (initializeMcp s c cb).1.monitor_task = s.monitor_task := by
  refine ⟨?_, ?_⟩ <;> simp [initializeMcp, h]

/-- Witness for C9 at a client whose loop is already running. -/
theorem claim_C9_initializeMcp_idempotent_witness :
    initializeMcp sRunning cfgWs true
      = ({ sRunning with config := some cfgWs, on_failure_callback := true },
         false) :=
  (claim_C9_initializeMcp_idempotent sRunning cfgWs true rfl).1

/-- C1 counterexample: the claim says a timed-out SSE handshake probe
makes `connect` fail with a transport error, but `anyio.move_on_after(3)`
swallows the cancellation, so on a timeout the handshake block raises
nothing, the pending event stream is untouched, and `connect` proceeds to
create the session. -/
theorem claim_C1_sse_timeout_counterexample :
    sseHandshake ["hello"] SSEProbe.timeout = Except.ok ["hello"] := rfl

/-- C1 (amended): the SSE branch opens the stream and probes one event
with a 3-second window; if the stream ends before any event arrives the
connect fails with `RuntimeError("SSE stream closed immediately")`, and a
probe that raises any other error fails with
`RuntimeError("SSE initial handshake failed: ...")`; a probe that merely
times out is silently abandoned and the transport proceeds as usable; a
successfully probed event is consumed and not replayed. -/
theorem claim_C1_sse_handshake (events rest : List String) (e msg : String) :
    sseHandshake events SSEProbe.endOfStream
      = Except.error "SSE stream closed immediately" ∧
    sseHandshake events (SSEProbe.recvError msg)
      = Except.error ("SSE initial handshake failed: " ++ msg) ∧
    sseHandshake events SSEProbe.timeout = Except.ok events ∧
    sseHandshake (e :: rest) SSEProbe.event = Except.ok rest :=
  ⟨rfl, rfl, rfl, rfl⟩

/-- C2 counterexample: with a callback registered and the client neither
shut down nor disabled, (a) a heartbeat-ping failure — a connected-phase
failure per the spec — breaks the session and reconnects without ever
invoking the callback, and (b) a callback that itself raises escapes the
iteration: the monitor task dies with it and the fixed-delay retry sleep
is never reached, contradicting "the loop still clears state and
retries". -/
theorem claim_C2_callback_counterexample :
    ((monitorIteration sCb
        (IterEvent.session (Except.ok [toolSearch]) PhaseEnd.pingFail)
        false).actions.countP isCallbackAction = 0 ∧
     (monitorIteration sCb
        (IterEvent.session (Except.ok [toolSearch]) PhaseEnd.pingFail)
        false).crashed = none) ∧
    ((monitorIteration sCb (IterEvent.connectError "boom") true).crashed
        = some "boom" ∧
     (monitorIteration sCb (IterEvent.connectError "boom") true).actions.countP
        isSleepAction = 0) :=
  ⟨⟨rfl, rfl⟩, ⟨rfl, rfl⟩⟩

/-- C2 (amended): when an exception reaches the outer handler of a loop
iteration and the client is neither shut down nor disabled, the registered
callback is awaited with the error message exactly once, and over any
iteration it is invoked at most once; a heartbeat-ping failure invokes it
zero times; and when the callback itself raises, the `finally` block still
clears the session reference and both caches, but the exception escapes
the iteration (the monitor task crashes and does not retry). -/
theorem claim_C2_callback_dispatch (s : McpClientState) (ev : IterEvent)
    (cb : Bool) (msg : String) (listTools : Except String (List ToolDesc))
    (hs : s.shutdown = false) (hd : s.disabled = false)
    (hcb : s.on_failure_callback = true) :
    ((monitorIteration s ev cb).actions.countP isCallbackAction ≤ 1) ∧
    ((monitorIteration s (IterEvent.connectError msg) cb).actions.countP
        isCallbackAction = 1) ∧
    ((monitorIteration s
        (IterEvent.session listTools PhaseEnd.pingFail) cb).actions.countP
        isCallbackAction = 0) ∧
    ((monitorIteration s (IterEvent.connectError msg) true).crashed
        = some msg) ∧
    ((monitorIteration s (IterEvent.connectError msg) true).state.conn = false ∧
     (monitorIteration s (IterEvent.connectError msg) true).state.tools_cache
        = [] ∧
     (monitorIteration s
        (IterEvent.connectError msg) true).state.tools_openai_cache = []) ∧
    ((monitorIteration s (IterEvent.connectError msg) true).actions.countP
        isSleepAction = 0) := by
  refine ⟨?_, ?_, ?_, ?_, ?_, ?_⟩
  · cases ev with
    | connectError m =>
        simp [monitorIteration, hs, hd, hcb, isCallbackAction,
          List.countP_cons, List.countP_append]
    | session lt pe =>
        cases pe <;>
          simp [monitorIteration, hs, hd, hcb, isCallbackAction,
            List.countP_cons, List.countP_append]
  · simp [monitorIteration, hs, hd, hcb, isCallbackAction,
      List.countP_cons, List.countP_append]
  · simp [monitorIteration, hs, hd, hcb, isCallbackAction,
      List.countP_cons, List.countP_append]
  · simp [monitorIteration, hs, hd, hcb]
  · refine ⟨?_, ?_, ?_⟩ <;> simp [monitorIteration]
  · simp [monitorIteration, hs, hd, hcb, isSleepAction,
      List.countP_cons, List.countP_append]

/-- Witness for C2 (amended) at a client with a registered callback. -/
theorem claim_C2_callback_dispatch_witness :
    (monitorIteration sCb (IterEvent.connectError "boom") false).actions.countP
        isCallbackAction = 1 :=
  (claim_C2_callback_dispatch sCb (IterEvent.connectError "x") false "boom"
    (Except.ok []) rfl rfl rfl).2.1

/-- C3: both caches are empty in the state built by `__init__`; the
`finally` block of every loop iteration ends with the session reference
dropped and both caches empty (so they are empty after every
supervisor-detected failure); and within an iteration that started with
empty caches — every iteration does, by the previous part — the
connected-phase state has a non-empty cache only when the handshake and
the subsequent refresh both succeeded (and then a session is stored),
while whenever no session is stored both caches are empty. -/
theorem claim_C3_cache_lifecycle :
    (McpClientInit.tools_cache = [] ∧ McpClientInit.tools_openai_cache = []) ∧
    (∀ (s : McpClientState) (ev : IterEvent) (cb : Bool),
      (monitorIteration s ev cb).state.conn = false ∧
      (monitorIteration s ev cb).state.tools_cache = [] ∧
      (monitorIteration s ev cb).state.tools_openai_cache = []) ∧
    (∀ (s : McpClientState) (ev : IterEvent),
      s.tools_cache = [] → s.tools_openai_cache = [] →
      ((connectedPhaseState s ev).tools_cache ≠ [] ∨
       (connectedPhaseState s ev).tools_openai_cache ≠ []) →
      isSuccessfulRefreshEvent ev = true ∧
        (connectedPhaseState s ev).conn = true) ∧
    (∀ (s : McpClientState) (ev : IterEvent),
      s.tools_cache = [] → s.tools_openai_cache = [] →
      (connectedPhaseState s ev).conn = false →
      (connectedPhaseState s ev).tools_cache = [] ∧
        (connectedPhaseState s ev).tools_openai_cache = []) := by
  refine ⟨⟨rfl, rfl⟩, ?_, ?_, ?_⟩
  · intro s ev cb
    refine ⟨?_, ?_, ?_⟩ <;> simp [monitorIteration]
  · intro s ev h1 h2 h3
    cases ev with
    | connectError m =>
        rw [connectedPhaseState] at h3
        rcases h3 with h3 | h3
        · exact absurd h1 h3
        · exact absurd h2 h3
    | session lt pe =>
        cases lt with
        | error m =>
            rw [connectedPhaseState, refreshToolsCache] at h3
            simp [h1, h2] at h3
        | ok tools =>
            cases tools with
            | nil =>
                rw [connectedPhaseState, refreshToolsCache] at h3
                simp at h3
            | cons t ts =>
                constructor
                · simp [isSuccessfulRefreshEvent]
                · simp [connectedPhaseState, refreshToolsCache]
  · intro s ev h1 h2 hconn
    cases ev with
    | connectError m =>
        exact ⟨h1, h2⟩
    | session lt pe =>
        exfalso
        rw [connectedPhaseState] at hconn
        cases lt with
        | error m => simp [refreshToolsCache] at hconn
        | ok tools => simp [refreshToolsCache] at hconn

/-- Witness for C3 at a fresh client and a failed connection attempt. -/
theorem claim_C3_cache_lifecycle_witness :
    (connectedPhaseState McpClientInit (IterEvent.connectError "x")).tools_cache
      = [] ∧
    (connectedPhaseState McpClientInit
      (IterEvent.connectError "x")).tools_openai_cache = [] :=
  claim_C3_cache_lifecycle.2.2.2 McpClientInit (IterEvent.connectError "x")
    rfl rfl rfl

end McpClients
